import Mathlib

/-!
# Verification of the mc2 provisioning pipeline and lifecycle reconciler

Shallow embedding of the state-machine core of the `mracter/mc2` repository:

* the lifecycle reconciler of a managed application
  (`src/mc2/controllers/base/models.py`: `Controller.create_marathon_app`,
  `Controller.exists_on_marathon`, the `publish_to_websocket` receiver),
* the provisioning pipeline engine (`apply_stage` / `advance` /
  `run_to_completion`, modelled from the spec because `unicoremc/states.py`
  is absent from the source tree; the tests under `src/unicoremc/tests/`
  exercise it),
* the Marathon app-data round trip of `DockerController`
  (`src/mc2/controllers/docker/models.py`).

Machine integers of the source (HTTP status codes, instance counts) are
embedded as `Nat`/`Int`; the source performs no arithmetic on them, only
comparisons and copies.
-/

/-! ## Marathon HTTP layer (src/mc2/controllers/base/models.py) -/

/-- An HTTP response from the Marathon orchestrator, as consumed by
`Controller.create_marathon_app`: the `status_code` and the `message`
field of the JSON body. -/
structure MarathonResponse where
  status_code : Nat
  message : String
deriving DecidableEq, Repr

/-- The exception type raised by the Marathon-facing methods of
`Controller` (`mc2.controllers.base.exceptions.MarathonApiException`),
carrying the response status and message that the source interpolates
into the exception string. -/
inductive MarathonApiError where
  | marathonApiException (status : Nat) (message : String)
deriving DecidableEq, Repr

/-- `Controller.create_marathon_app` (src/mc2/controllers/base/models.py,
lines 117-126): POSTs the app data and raises `MarathonApiException`
with the response status and message whenever `resp.status_code != 201`;
otherwise it returns normally. -/
def create_marathon_app (resp : MarathonResponse) : Except MarathonApiError Unit :=
  if resp.status_code ≠ 201 then
    .error (.marathonApiException resp.status_code resp.message)
  else
    .ok ()

/-- A 2xx HTTP success status, as the spec's phrase "non-2xx" reads. -/
def is2xx (status : Nat) : Bool :=
  200 ≤ status && status < 300

/-- `Controller.exists_on_marathon` (src/mc2/controllers/base/models.py,
lines 169-176): GETs the app from the orchestrator and reports existence
as `resp.status_code == 200`. -/
def exists_on_marathon (resp_status : Nat) : Bool :=
  resp_status == 200

/-! ## Lifecycle reconciler

The recorded lifecycle state of a managed application.  The source
stores it in `Controller.state` as the strings `'initial'`, `'done'`
and `'missing'` (see `src/controllers/base/tests/test_views.py`,
`test_update_marathon_exists` / `test_update_marathon_missing`); the
spec calls these `unbuilt`, `present` and `missing`. -/

/-- Lifecycle state of a managed application: `initial` (= spec
`unbuilt`), `done` (= spec `present`), `missing`. -/
inductive LifecycleState where
  | initial
  | done
  | missing
deriving DecidableEq, Repr

/-- Modelled from the spec: `build()` of the lifecycle reconciler.  The
`Builder` class (`mc2/controllers/base/builders.py`) is absent from
`src/`; per spec §4.3 a build invokes the orchestrator create call
(`create_marathon_app`, embedded above from the source) and on success
records the built state, while on failure it leaves the recorded state
untouched and surfaces the failure.  Returns the recorded state after
the call together with the raised failure, if any. -/
def build (s : LifecycleState) (resp : MarathonResponse) :
    LifecycleState × Option MarathonApiError :=
  match create_marathon_app resp with
  | .ok () => (.done, none)
  | .error e => (s, some e)

/-- Modelled from the spec: `inspect()` of the lifecycle reconciler.
The view behind `base:update_marathon_exists_json`
(`mc2/controllers/base/views.py`) is absent from `src/`; per spec §4.3
a successful poll of the orchestrator overwrites the recorded lifecycle
state to match the reported existence, regardless of what was recorded.
Existence is computed by `exists_on_marathon` (embedded above from the
source) on the poll's HTTP status. -/
def inspect (s : LifecycleState) (poll_status : Nat) : LifecycleState :=
  if exists_on_marathon poll_status then .done else .missing

/-! ## Theorems: lifecycle reconciler claims -/

/-- C4, counterexample: the claim says `create_marathon_app` raises
`OrchestratorApiFailure` **iff** the status is not 2xx, succeeding on
every 2xx response.  The source raises on every status other than 201:
at status 200 — a 2xx success status — it raises. -/
theorem create_marathon_app_raises_on_200 :
    is2xx 200 = true ∧
      create_marathon_app ⟨200, "ok"⟩ =
        .error (.marathonApiException 200 "ok") := by
  constructor
  · rfl
  · rfl

/-- C4, amended: `create_marathon_app` succeeds iff the orchestrator's
response status is exactly 201; on any other status (in particular on
every non-2xx status) it raises `MarathonApiException` carrying the
response status and message. -/
theorem create_marathon_app_ok_iff_201 (resp : MarathonResponse) :
    (create_marathon_app resp = .ok () ↔ resp.status_code = 201) ∧
      (resp.status_code ≠ 201 →
        create_marathon_app resp =
          .error (.marathonApiException resp.status_code resp.message)) := by
  constructor
  · constructor
    · intro h
      by_contra hne
      simp [create_marathon_app, hne] at h
    · intro h
      simp [create_marathon_app, h]
  · intro h
    simp [create_marathon_app, h]

/-- C4 witness: at a concrete non-201 response the amended theorem
yields the raised failure with its status and message. -/
theorem create_marathon_app_ok_iff_201_witness :
    create_marathon_app ⟨404, "Not Found"⟩ =
      .error (.marathonApiException 404 "Not Found") :=
  (create_marathon_app_ok_iff_201 ⟨404, "Not Found"⟩).2 (by decide)

/-- C5: `build()` from the unbuilt state with the orchestrator
returning HTTP 201 leaves the recorded lifecycle state built
(`done`, spec `present`) with no failure; from unbuilt with HTTP 404
or 500 it raises `MarathonApiException` and leaves the recorded state
unbuilt, unchanged. -/
theorem build_from_initial (m201 m404 m500 : String) :
    build .initial ⟨201, m201⟩ = (.done, none) ∧
      build .initial ⟨404, m404⟩ =
        (.initial, some (.marathonApiException 404 m404)) ∧
      build .initial ⟨500, m500⟩ =
        (.initial, some (.marathonApiException 500 m500)) := by
  refine ⟨rfl, rfl, rfl⟩

/-- C3: a successful `inspect()` poll overwrites the recorded lifecycle
state to the orchestrator's reported existence: from recorded `done`
(spec `present`) with the poll reporting absence it transitions to
`missing`, and from recorded `missing` with the poll reporting presence
it transitions back to `done`. -/
theorem inspect_repairs_drift (poll_present poll_absent : Nat)
    (h1 : exists_on_marathon poll_present = true)
    (h2 : exists_on_marathon poll_absent = false) :
    inspect .done poll_absent = .missing ∧
      inspect .missing poll_present = .done := by
  constructor
  · simp [inspect, h2]
  · simp [inspect, h1]

/-- C3 witness: a 200 poll reports presence, a 404 poll absence; the
drift-repair transitions hold at these concrete polls. -/
theorem inspect_repairs_drift_witness :
    inspect .done 404 = .missing ∧ inspect .missing 200 = .done :=
  inspect_repairs_drift 200 404 (by decide) (by decide)

/-- C7: `inspect()` is idempotent on the recorded lifecycle state: from
any starting recorded state, a second poll reporting the same existence
leaves the same recorded state as the first. -/
theorem inspect_idempotent (s : LifecycleState) (poll_status : Nat) :
    inspect (inspect s poll_status) poll_status = inspect s poll_status := by
  unfold inspect
  cases h : exists_on_marathon poll_status <;> simp [h]

/-! ## Pipeline engine

The provisioning pipeline engine (`ProjectWorkflow` in
`unicoremc/states.py`, driven through `take_action` / `next` /
`run_all`) is absent from `src/`; only its tests
(`src/unicoremc/tests/test_states.py`, `test_project.py`) and the
exception types it raises (`src/unicoremc/exceptions.py`) are present.
The engine below is modelled from the spec, §4.1. -/

/-- Caller-supplied runtime parameters: a mapping of named values
(e.g. `access_token`), per spec §6. -/
abbrev Params := List (String × String)

/-- Look up a named parameter. -/
def getParam (ps : Params) (k : String) : Option String :=
  (ps.find? (fun p => p.1 == k)).map (·.2)

/-- The failure taxonomy of the pipeline (spec §7).  `OutOfOrderTransition`,
`MissingParameter` and `TerminalState` are raised by the engine itself;
`AccessTokenRequiredException` and `GithubApiException` are the concrete
domain failures declared in `src/unicoremc/exceptions.py` and raised by
Capability Steps. -/
inductive PipelineFailure where
  | outOfOrderTransition
  | missingParameter (name : String)
  | terminalState
  | stageNotFound (name : String)
  | accessTokenRequiredException
  | githubApiException (status : Nat) (message : String)
deriving DecidableEq, Repr

/-- Modelled from the spec: a stage of a Pipeline Definition (spec §3):
a name, a declared predecessor and successor state, the required
runtime parameter names, and the Capability Step it runs.  A step
either succeeds with no structured output or raises a typed failure
(spec §4.2). -/
structure Stage where
  name : String
  pred : String
  succ : String
  required_params : List String
  step : Params → Except PipelineFailure Unit

/-- The entity being provisioned: a stable identifier and the durably
persisted `state` field (`Project.state` / `Controller.state`). -/
structure Entity where
  id : Nat
  state : String
deriving DecidableEq, Repr

/-- A newly created entity: the `state` column defaults to `'initial'`
(src/mc2/controllers/base/models.py, line 43, and
`test_initial_state` in src/unicoremc/tests/test_states.py). -/
def Entity.new (id : Nat) : Entity :=
  { id := id, state := "initial" }

/-- Look up a stage of the Pipeline Definition by name. -/
def findStage (stages : List Stage) (stage_name : String) : Option Stage :=
  stages.find? (fun st => st.name == stage_name)

/-- Modelled from the spec: `apply_stage` (spec §4.1; `take_action` in
the absent `unicoremc/states.py`).  Looks up the stage, fails with
`OutOfOrderTransition` when the stage's declared predecessor differs
from the entity's current state, fails with `MissingParameter` when a
declared required parameter is absent, then invokes the Capability
Step; only on step success does it set (and persist) the successor
state.  Returns the persisted entity after the call together with the
raised failure, if any.  A request for an unknown stage name is not
specified by the spec; it is reported as `stageNotFound` without
touching the entity. -/
def apply_stage (stages : List Stage) (e : Entity) (stage_name : String)
    (ps : Params) : Entity × Option PipelineFailure :=
  match findStage stages stage_name with
  | none => (e, some (.stageNotFound stage_name))
  | some st =>
    if st.pred ≠ e.state then
      (e, some .outOfOrderTransition)
    else
      match st.required_params.find? (fun k => (getParam ps k).isNone) with
      | some k => (e, some (.missingParameter k))
      | none =>
        match st.step ps with
        | .error f => (e, some f)
        | .ok () => ({ e with state := st.succ }, none)

/-- Modelled from the spec: `advance` (spec §4.1; `next` in the absent
`unicoremc/states.py`): computes the stage whose declared predecessor
equals the entity's current state and applies it; fails with
`TerminalState` at the pipeline's terminal state.  A non-terminal state
with no outgoing stage is not specified by the spec and is reported as
`stageNotFound`. -/
def advance (stages : List Stage) (terminal : String) (e : Entity)
    (ps : Params) : Entity × Option PipelineFailure :=
  if e.state = terminal then (e, some .terminalState)
  else
    match stages.find? (fun st => st.pred == e.state) with
    | none => (e, some (.stageNotFound e.state))
    | some st => apply_stage stages e st.name ps

/-- Modelled from the spec: `run_to_completion` (spec §4.1; `run_all` in
the absent `unicoremc/states.py`): repeatedly advances until the
terminal state is reached or a stage fails, halting at the first
failure.  The `fuel` argument bounds the number of iterations so that
the recursion is structural; callers pass at least the number of
remaining stages. -/
def run_to_completion (stages : List Stage) (terminal : String) :
    Nat → Entity → Params → Entity × Option PipelineFailure
  | 0, e, _ => (e, none)
  | fuel + 1, e, ps =>
    if e.state = terminal then (e, none)
    else
      match advance stages terminal e ps with
      | (e2, none) => run_to_completion stages terminal fuel e2 ps
      | (e2, some f) => (e2, some f)

/-- The named states of a pipeline: the starting state followed by each
stage's successor state (spec §3: number of stages plus one). -/
def statesFrom (s : String) (stages : List Stage) : List String :=
  s :: stages.map (·.succ)

/-- The linearity condition of a Pipeline Definition (spec §3, §4.4):
starting from `s`, each stage's declared predecessor is the running
state and its successor feeds the next stage, ending at `t`. -/
def chainFrom : String → List Stage → String → Prop
  | s, [], t => s = t
  | s, st :: rest, t => st.pred = s ∧ chainFrom st.succ rest t

/-- In a chained pipeline every stage's declared predecessor is one of
the pipeline's named states. -/
theorem chainFrom_pred_mem {s t : String} {stages : List Stage}
    (h : chainFrom s stages t) :
    ∀ st ∈ stages, st.pred ∈ statesFrom s stages := by
  induction stages generalizing s with
  | nil => intro st hst; cases hst
  | cons a rest ih =>
    intro st hst
    obtain ⟨ha, hrest⟩ := h
    cases hst with
    | head => simp [statesFrom, ha]
    | tail _ hmem =>
      have hx := ih hrest st hmem
      simp [statesFrom] at hx ⊢
      tauto

/-- In a chained pipeline with distinct states, every non-terminal
state has exactly one outgoing stage (exactly one successor state). -/
theorem chain_unique_successor {s t x : String} {stages : List Stage}
    (hchain : chainFrom s stages t)
    (hnodup : (statesFrom s stages).Nodup)
    (hx : x ∈ statesFrom s stages) (hxt : x ≠ t) :
    (stages.filter (fun s2 => s2.pred == x)).length = 1 := by
  induction stages generalizing s with
  | nil =>
    simp [statesFrom] at hx
    simp [chainFrom] at hchain
    exact absurd (hx ▸ hchain) hxt
  | cons a rest ih =>
    obtain ⟨ha, hrest⟩ := hchain
    have hnodup' : (statesFrom a.succ rest).Nodup := by
      simpa [statesFrom] using hnodup.of_cons
    have hsnot : s ∉ statesFrom a.succ rest := by
      have := hnodup
      simp [statesFrom] at this ⊢
      tauto
    by_cases hxs : x = s
    · subst hxs
      have hrest_nil :
          rest.filter (fun s2 => s2.pred == x) = [] := by
        rw [List.filter_eq_nil_iff]
        intro st hst
        have := chainFrom_pred_mem hrest st hst
        simp only [beq_iff_eq]
        intro hcontra
        exact hsnot (hcontra ▸ this)
      simp [List.filter, ha, hrest_nil]
    · have hx' : x ∈ statesFrom a.succ rest := by
        simp [statesFrom] at hx ⊢
        tauto
      have : (rest.filter (fun s2 => s2.pred == x)).length = 1 :=
        ih hrest hnodup' hx'
      have hane : (a.pred == x) = false := by
        simp [ha]
        exact fun hc => hxs hc.symm
      simpa [List.filter, hane] using this

/-- In a chained pipeline with distinct states, every state other than
the starting one has exactly one incoming stage (exactly one
predecessor state). -/
theorem chain_unique_predecessor {s t x : String} {stages : List Stage}
    (hchain : chainFrom s stages t)
    (hnodup : (statesFrom s stages).Nodup)
    (hx : x ∈ statesFrom s stages) (hxs : x ≠ s) :
    (stages.filter (fun s2 => s2.succ == x)).length = 1 := by
  induction stages generalizing s with
  | nil =>
    simp [statesFrom] at hx
    exact absurd hx hxs
  | cons a rest ih =>
    obtain ⟨ha, hrest⟩ := hchain
    have hnodup' : (statesFrom a.succ rest).Nodup := by
      simpa [statesFrom] using hnodup.of_cons
    have hx' : x ∈ statesFrom a.succ rest := by
      simp [statesFrom] at hx ⊢
      tauto
    by_cases hxa : x = a.succ
    · subst hxa
      have hnotin : a.succ ∉ rest.map (·.succ) := by
        have h2 := hnodup'
        simp only [statesFrom, List.nodup_cons] at h2
        exact h2.1
      have hsucc_nil :
          rest.filter (fun s2 => s2.succ == a.succ) = [] := by
        rw [List.filter_eq_nil_iff]
        intro st hst
        simp only [beq_iff_eq]
        intro hcontra
        exact hnotin (hcontra ▸ List.mem_map_of_mem _ hst)
      simp [List.filter, hsucc_nil]
    · have : (rest.filter (fun s2 => s2.succ == x)).length = 1 :=
        ih hrest hnodup' hx' hxa
      have hane : (a.succ == x) = false := by
        simp
        exact fun hc => hxa hc.symm
      simpa [List.filter, hane] using this

/-- Modelled from the spec: the remote-repo-creation Capability Step
(`Project.create_repo`, absent from `src/`; its exception types
`AccessTokenRequiredException` and `GithubApiException` are declared in
`src/unicoremc/exceptions.py` and its behaviour is pinned by
`test_create_repo_missing_access_token` and
`test_create_repo_bad_response` in `src/unicoremc/tests/test_project.py`).
Without an `access_token` parameter it fails with
`AccessTokenRequiredException`; with one, a non-2xx hosting-API response
fails with `GithubApiException` carrying the response status and
message. -/
def create_repo_step (resp_status : Nat) (resp_message : String)
    (ps : Params) : Except PipelineFailure Unit :=
  match getParam ps "access_token" with
  | none => .error .accessTokenRequiredException
  | some _ =>
    if is2xx resp_status then .ok ()
    else .error (.githubApiException resp_status resp_message)

/-- The first stage of the provisioning pipeline: `create_repo`, from
state `initial` to `repo_created` (src/unicoremc/tests/test_states.py,
`test_next`), running the remote-repo-creation step against a hosting
API that answers with the given response. -/
def create_repo_stage (resp_status : Nat) (resp_message : String) : Stage :=
  { name := "create_repo", pred := "initial", succ := "repo_created",
    required_params := [], step := create_repo_step resp_status resp_message }

/-! ## Theorems: pipeline engine claims -/

/-- C1: for every pipeline stage, if the Capability Step raises a domain
failure during `apply_stage`/`take_action`, the entity's persisted state
after the call is exactly its state before the call, and the very same
failure propagates to the caller. -/
theorem step_failure_preserves_state
    (stages : List Stage) (e : Entity) (stage_name : String) (ps : Params)
    (st : Stage) (f : PipelineFailure)
    (hfind : findStage stages stage_name = some st)
    (hpred : st.pred = e.state)
    (hparams : st.required_params.find? (fun k => (getParam ps k).isNone) = none)
    (hstep : st.step ps = .error f) :
    apply_stage stages e stage_name ps = (e, some f) := by
  simp [apply_stage, hfind, hpred, hparams, hstep]

/-- A concrete failing create-repo stage: the hosting API answers 404
"Not authorized" (the scenario of `test_create_repo_bad_response`). -/
def failing_create_repo : Stage :=
  create_repo_stage 404 "Not authorized"

/-- C1 witness: applying the failing create-repo stage to a fresh
entity propagates the `GithubApiException` and leaves the entity
unchanged. -/
theorem step_failure_preserves_state_witness :
    failing_create_repo.step [("access_token", "sample-token")] =
        .error (.githubApiException 404 "Not authorized") ∧
      apply_stage [failing_create_repo] (Entity.new 3) "create_repo"
          [("access_token", "sample-token")] =
        (Entity.new 3, some (.githubApiException 404 "Not authorized")) :=
  ⟨rfl,
    step_failure_preserves_state [failing_create_repo] (Entity.new 3)
      "create_repo" [("access_token", "sample-token")] failing_create_repo
      (.githubApiException 404 "Not authorized") rfl rfl rfl rfl⟩

/-- C2, counterexample: in a well-formed single-stage pipeline
(`initial → done`) the state `initial` is non-terminal, yet **no** stage
has it as successor state: a non-terminal state with exactly zero, not
one, predecessors.  This refutes the claim's "exactly one predecessor
and one successor state for every non-terminal state" as stated. -/
theorem initial_state_has_no_predecessor :
    chainFrom "initial" [create_repo_stage 201 ""] "repo_created" ∧
      (statesFrom "initial" [create_repo_stage 201 ""]).Nodup ∧
      ("initial" : String) ≠ "repo_created" ∧
      (([create_repo_stage 201 ""].filter
          (fun s2 => s2.succ == "initial")).length = 0) :=
  ⟨⟨rfl, rfl⟩, by decide, by decide, by decide⟩

/-- C2, amended: calling `apply_stage` with a stage whose declared
predecessor state differs from the entity's current state fails with
`OutOfOrderTransition` and never mutates the entity; and in a
well-formed pipeline (chained stages over pairwise-distinct states) the
stage order is a total order: every non-terminal state has exactly one
successor stage and every non-initial state has exactly one predecessor
stage (the initial state has none). -/
theorem out_of_order_and_linear_order
    (stages : List Stage) (e : Entity) (stage_name : String) (ps : Params)
    (st : Stage) (init terminal : String)
    (hfind : findStage stages stage_name = some st)
    (hpred : st.pred ≠ e.state)
    (hchain : chainFrom init stages terminal)
    (hnodup : (statesFrom init stages).Nodup) :
    apply_stage stages e stage_name ps = (e, some .outOfOrderTransition) ∧
      (∀ x ∈ statesFrom init stages, x ≠ terminal →
        (stages.filter (fun s2 => s2.pred == x)).length = 1) ∧
      (∀ x ∈ statesFrom init stages, x ≠ init →
        (stages.filter (fun s2 => s2.succ == x)).length = 1) := by
  refine ⟨?_, ?_, ?_⟩
  · simp [apply_stage, hfind, hpred]
  · intro x hx hxt
    exact chain_unique_successor hchain hnodup hx hxt
  · intro x hx hxi
    exact chain_unique_predecessor hchain hnodup hx hxi

/-- A two-stage pipeline used as concrete input:
`initial → repo_created → done`. -/
def clone_repo_stage : Stage :=
  { name := "clone_repo", pred := "repo_created", succ := "done",
    required_params := [], step := fun _ => .ok () }

/-- C2 witness: calling the second stage of the two-stage pipeline on a
fresh entity (state `initial`) is out of order: it fails with
`OutOfOrderTransition`, mutates nothing, and the pipeline's states form
a total order. -/
theorem out_of_order_and_linear_order_witness :
    clone_repo_stage.pred ≠ (Entity.new 7).state ∧
      (apply_stage [create_repo_stage 201 "", clone_repo_stage] (Entity.new 7)
          "clone_repo" [] = (Entity.new 7, some .outOfOrderTransition) ∧
        (∀ x ∈ statesFrom "initial" [create_repo_stage 201 "", clone_repo_stage],
          x ≠ "done" →
            (([create_repo_stage 201 "", clone_repo_stage]).filter
              (fun s2 => s2.pred == x)).length = 1) ∧
        (∀ x ∈ statesFrom "initial" [create_repo_stage 201 "", clone_repo_stage],
          x ≠ "initial" →
            (([create_repo_stage 201 "", clone_repo_stage]).filter
              (fun s2 => s2.succ == x)).length = 1)) :=
  ⟨by decide,
    out_of_order_and_linear_order [create_repo_stage 201 "", clone_repo_stage]
      (Entity.new 7) "clone_repo" [] clone_repo_stage "initial" "done" rfl
      (by decide) ⟨rfl, rfl, rfl⟩ (by decide)⟩

/-- Helper for C8: running the engine along the remaining chain of a
pipeline whose steps all succeed, whose required parameters are all
supplied, and whose states and names are unambiguous, reaches the
terminal state with no failure. -/
theorem run_chain (stages : List Stage) (terminal : String) (ps : Params)
    (hsteps : ∀ st ∈ stages, st.step ps = .ok ())
    (hparams : ∀ st ∈ stages, ∀ k ∈ st.required_params,
      (getParam ps k).isSome = true)
    (hfindp : ∀ st ∈ stages,
      stages.find? (fun s2 => s2.pred == st.pred) = some st)
    (hfindn : ∀ st ∈ stages, findStage stages st.name = some st)
    (hnt : ∀ st ∈ stages, st.pred ≠ terminal) :
    ∀ (rest : List Stage) (fuel : Nat) (e : Entity),
      (∀ st ∈ rest, st ∈ stages) →
      chainFrom e.state rest terminal →
      rest.length ≤ fuel →
      run_to_completion stages terminal fuel e ps =
        ({ e with state := terminal }, none) := by
  intro rest
  induction rest with
  | nil =>
    intro fuel e _ hchain _
    simp only [chainFrom] at hchain
    subst hchain
    obtain ⟨i, s⟩ := e
    cases fuel with
    | zero => rfl
    | succ n => simp [run_to_completion]
  | cons st rs ih =>
    intro fuel e hsub hchain hlen
    obtain ⟨hp, hrest⟩ := hchain
    have hstmem : st ∈ stages := hsub st (List.mem_cons_self _ _)
    have hnterm : e.state ≠ terminal := hp ▸ hnt st hstmem
    cases fuel with
    | zero => simp at hlen
    | succ n =>
      have hfind := hfindp st hstmem
      rw [hp] at hfind
      have hpar :
          st.required_params.find? (fun k => (getParam ps k).isNone) = none := by
        rw [List.find?_eq_none]
        intro k hk
        have h2 := hparams st hstmem k hk
        cases hgp : getParam ps k with
        | none => rw [hgp] at h2; simp at h2
        | some v => simp
      have happ : apply_stage stages e st.name ps =
          ({ e with state := st.succ }, none) := by
        simp [apply_stage, hfindn st hstmem, hp, hpar, hsteps st hstmem]
      have hrun := ih n { e with state := st.succ }
        (fun x hx => hsub x (List.mem_cons_of_mem _ hx)) hrest
        (by simpa using Nat.succ_le_succ_iff.mp hlen)
      simp only [run_to_completion, if_neg hnterm, advance, hfind, happ]
      exact hrun

/-- C8: a newly created entity is in the `initial` state before any
stage runs, and `run_to_completion` (`run_all`) repeatedly advances one
stage at a time until the terminal state, so that after a run of a
well-formed pipeline in which every Capability Step succeeds the
entity's persisted state equals the terminal state, with no failure. -/
theorem new_entity_runs_to_done
    (n : Nat) (stages : List Stage) (terminal : String) (ps : Params)
    (fuel : Nat)
    (hchain : chainFrom "initial" stages terminal)
    (hsteps : ∀ st ∈ stages, st.step ps = .ok ())
    (hparams : ∀ st ∈ stages, ∀ k ∈ st.required_params,
      (getParam ps k).isSome = true)
    (hfindp : ∀ st ∈ stages,
      stages.find? (fun s2 => s2.pred == st.pred) = some st)
    (hfindn : ∀ st ∈ stages, findStage stages st.name = some st)
    (hnt : ∀ st ∈ stages, st.pred ≠ terminal)
    (hfuel : stages.length ≤ fuel) :
    (Entity.new n).state = "initial" ∧
      run_to_completion stages terminal fuel (Entity.new n) ps =
        ({ id := n, state := terminal }, none) := by
  refine ⟨rfl, ?_⟩
  exact run_chain stages terminal ps hsteps hparams hfindp hfindn hnt stages
    fuel (Entity.new n) (fun _ h => h) hchain hfuel

/-- C8 witness: the two-stage pipeline
`initial → repo_created → done` with succeeding steps, run with enough
fuel from a fresh entity, ends in state `done` with no failure. -/
theorem new_entity_runs_to_done_witness :
    chainFrom "initial" [create_repo_stage 201 "", clone_repo_stage] "done" ∧
      run_to_completion [create_repo_stage 201 "", clone_repo_stage] "done" 2
          (Entity.new 9) [("access_token", "sample-token")] =
        ({ id := 9, state := "done" }, none) := by
  refine ⟨⟨rfl, rfl, rfl⟩, ?_⟩
  refine (new_entity_runs_to_done 9 [create_repo_stage 201 "", clone_repo_stage]
    "done" [("access_token", "sample-token")] 2 ⟨rfl, rfl, rfl⟩ ?_ ?_ ?_ ?_ ?_
    (by decide)).2
  · intro st hst
    simp at hst
    rcases hst with rfl | rfl <;> rfl
  · intro st hst
    simp at hst
    rcases hst with rfl | rfl <;> simp [create_repo_stage, clone_repo_stage]
  · intro st hst
    simp at hst
    rcases hst with rfl | rfl <;> rfl
  · intro st hst
    simp at hst
    rcases hst with rfl | rfl <;> rfl
  · intro st hst
    simp at hst
    rcases hst with rfl | rfl <;> decide

/-- C6: invoking the remote-repository-creation stage without an
`access_token` parameter fails with `AccessTokenRequiredException`,
surfaced immediately with no change to the entity; with a token, a
non-2xx hosting-API response fails with `GithubApiException` carrying
the response status and message, also with no change to the entity. -/
theorem create_repo_failures_preserve_state
    (status : Nat) (msg : String) (e : Entity) (ps1 ps2 : Params)
    (tok : String)
    (hstate : e.state = "initial")
    (hnotok : getParam ps1 "access_token" = none)
    (htok : getParam ps2 "access_token" = some tok)
    (hbad : is2xx status = false) :
    apply_stage [create_repo_stage status msg] e "create_repo" ps1 =
        (e, some .accessTokenRequiredException) ∧
      apply_stage [create_repo_stage status msg] e "create_repo" ps2 =
        (e, some (.githubApiException status msg)) := by
  constructor <;>
    simp [apply_stage, findStage, create_repo_stage, create_repo_step,
      hstate, hnotok, htok, hbad]

/-- C6 witness: at the 404 "Not authorized" response of
`test_create_repo_bad_response`, calling `create_repo` on a fresh
entity without a token raises `AccessTokenRequiredException`, and with
a token raises `GithubApiException` with the status and message; the
entity is unchanged both times. -/
theorem create_repo_failures_preserve_state_witness :
    is2xx 404 = false ∧
      apply_stage [create_repo_stage 404 "Not authorized"] (Entity.new 5)
          "create_repo" [] = (Entity.new 5, some .accessTokenRequiredException) ∧
      apply_stage [create_repo_stage 404 "Not authorized"] (Entity.new 5)
          "create_repo" [("access_token", "sample-token")] =
        (Entity.new 5, some (.githubApiException 404 "Not authorized")) :=
  ⟨by decide,
    (create_repo_failures_preserve_state 404 "Not authorized" (Entity.new 5)
        [] [("access_token", "sample-token")] "sample-token" rfl rfl rfl
        (by decide)).1,
    (create_repo_failures_preserve_state 404 "Not authorized" (Entity.new 5)
        [] [("access_token", "sample-token")] "sample-token" rfl rfl rfl
        (by decide)).2⟩

/-! ## Broadcast on save (src/mc2/controllers/base/models.py, lines 185-196) -/

/-- The fields of `Controller` read by `Controller.to_dict`. -/
structure ControllerRecord where
  id : Nat
  name : String
  slug : String
  state : String
  marathon_cmd : String
deriving DecidableEq, Repr

/-- `Controller.app_id` (src/mc2/controllers/base/models.py, lines
95-100): the marathon app id is the slug. -/
def ControllerRecord.app_id (c : ControllerRecord) : String :=
  c.slug

/-- The dict built by `Controller.to_dict` (src/mc2/controllers/base/
models.py, lines 85-93). -/
structure ControllerDict where
  id : Nat
  name : String
  app_id : String
  state : String
  state_display : String
  marathon_cmd : String
deriving DecidableEq, Repr

/-- `Controller.to_dict`: the `state_display` entry is produced by
`get_state_display` through the builder's workflow, whose code is
absent from `src/`; it is abstracted as the function `display` of the
raw state. -/
def to_dict (display : String → String) (c : ControllerRecord) :
    ControllerDict :=
  { id := c.id, name := c.name, app_id := c.app_id, state := c.state,
    state_display := display c.state, marathon_cmd := c.marathon_cmd }

/-- A message published on the websocket broadcast channel. -/
structure BroadcastMessage where
  facility : String
  data : ControllerDict
  is_created : Bool
deriving DecidableEq, Repr

/-- `publish_to_websocket` (src/mc2/controllers/base/models.py, lines
185-196): builds `instance.to_dict()`, adds `is_created`, and publishes
exactly one message on the broadcast facility `progress`. -/
def publish_to_websocket (display : String → String) (c : ControllerRecord)
    (created : Bool) : List BroadcastMessage :=
  [{ facility := "progress", data := to_dict display c,
     is_created := created }]

/-- The notifications emitted by one save of a controller.
`publish_to_websocket` is connected with `@receiver(post_save,
sender=Controller)`: Django fires it once on **every** save of a
controller — creating or not, state-changing or not. -/
def save_notifications (display : String → String) (c : ControllerRecord)
    (created : Bool) : List BroadcastMessage :=
  publish_to_websocket display c created

/-- C9, counterexample: the claim says the broadcast fires only on
persists that change the state.  Saving an existing controller without
any state transition (here: a re-save of a controller already in state
`done`, `created = false`) still fires exactly one notification. -/
theorem save_without_transition_broadcasts :
    save_notifications (fun s => s)
        { id := 1, name := "app", slug := "app-slug", state := "done",
          marathon_cmd := "ping" } false ≠ [] ∧
      (save_notifications (fun s => s)
          { id := 1, name := "app", slug := "app-slug", state := "done",
            marathon_cmd := "ping" } false).length = 1 := by
  constructor
  · intro h
    simp [save_notifications, publish_to_websocket] at h
  · rfl

/-- C9, amended: the broadcast-on-save observer notification is fired
exactly once per successful persist — on every save, including
creation and persists that do not change the state — and the published
message carries the entity's identifier and its (new) recorded state
on the `progress` broadcast facility. -/
theorem broadcast_once_per_save (display : String → String)
    (c : ControllerRecord) (created : Bool) :
    (save_notifications display c created).length = 1 ∧
      ∀ m ∈ save_notifications display c created,
        m.facility = "progress" ∧ m.data.id = c.id ∧
          m.data.state = c.state ∧ m.is_created = created := by
  refine ⟨rfl, ?_⟩
  intro m hm
  simp only [save_notifications, publish_to_websocket,
    List.mem_singleton] at hm
  subst hm
  exact ⟨rfl, rfl, rfl, rfl⟩

/-- C9 witness: on a concrete creating save, exactly one message is
published and it carries the identifier and state. -/
theorem broadcast_once_per_save_witness :
    (save_notifications (fun _ => "Ready") 
        { id := 2, name := "site", slug := "site-slug", state := "initial",
          marathon_cmd := "run" } true).length = 1 ∧
      ∀ m ∈ save_notifications (fun _ => "Ready")
          { id := 2, name := "site", slug := "site-slug", state := "initial",
            marathon_cmd := "run" } true,
        m.facility = "progress" ∧ m.data.id = 2 ∧
          m.data.state = "initial" ∧ m.is_created = true :=
  broadcast_once_per_save (fun _ => "Ready")
    { id := 2, name := "site", slug := "site-slug", state := "initial",
      marathon_cmd := "run" } true

/-! ## DockerController marathon app data
(src/mc2/controllers/docker/models.py) -/

/-- The Django settings consumed by the round trip. -/
structure MCSettings where
  HUB_DOMAIN : String
  MARATHON_DEFAULT_VOLUME_PATH : String
deriving DecidableEq, Repr

/-- One entry of the `portMappings` list. -/
structure PortMapping where
  containerPort : Nat
  hostPort : Nat
deriving DecidableEq, Repr

/-- One entry of the `healthChecks` list. -/
structure HealthCheck where
  gracePeriodSeconds : Nat
  intervalSeconds : Nat
  maxConsecutiveFailures : Nat
  path : String
  portIndex : Nat
  protocol : String
  timeoutSeconds : Nat
deriving DecidableEq, Repr

/-- The `docker` sub-dict of the container spec.  Keys that
`get_marathon_app_data` only sometimes emits are `Option`s (`none` =
key absent). -/
structure DockerDict where
  image : String
  forcePullImage : Bool
  network : String
  portMappings : Option (List PortMapping)
  parameters : Option (List (String × String))
deriving DecidableEq, Repr

/-- The `labels` dict of the app data.  `get_marathon_app_data` always
builds it as `{"domain": …, "name": …}` and then applies the
controller's custom labels in order, so it always has a `domain` and a
`name` key; `extra` holds the other keys in insertion order with their
last assigned values (Python dict semantics). -/
structure ServiceLabels where
  domain : String
  name : String
  extra : List (String × String)
deriving DecidableEq, Repr

/-- Python dict item assignment on an association list: replace the
value of an existing key in place, else append the new key. -/
def dictInsert (l : List (String × String)) (k v : String) :
    List (String × String) :=
  if l.any (fun p => p.1 == k) then
    l.map (fun p => if p.1 == k then (k, v) else p)
  else
    l ++ [(k, v)]

/-- `service_labels[label.name] = label.value` on the labels dict. -/
def addLabel (s : ServiceLabels) (kv : String × String) : ServiceLabels :=
  if kv.1 = "domain" then { s with domain := kv.2 }
  else if kv.1 = "name" then { s with name := kv.2 }
  else { s with extra := dictInsert s.extra kv.1 kv.2 }

/-- The Marathon app definition produced by
`DockerController.get_marathon_app_data` (the base keys `id`, `cpus`,
`mem`, `instances`, `cmd` come from `Controller.get_marathon_app_data`,
src/mc2/controllers/base/models.py lines 105-115).  The float fields
`cpus`/`mem` are embedded as `Int`: the source only copies them, never
computes with them. -/
structure AppData where
  id : String
  cpus : Int
  mem : Int
  instances : Int
  cmd : String
  labels : ServiceLabels
  container_type : String
  docker : DockerDict
  ports : Option (List Nat)
  healthChecks : Option (List HealthCheck)
deriving DecidableEq, Repr

/-- The fields of `DockerController` (with its base `Controller`
fields) read and written by the round trip.  `volume_path` and
`marathon_health_check_path` are nullable char fields: `none` models
NULL and `some ""` a blank value, both falsy in the source's truth
tests. -/
structure DockerController where
  slug : String
  marathon_cpus : Int
  marathon_mem : Int
  marathon_instances : Int
  marathon_cmd : String
  name : String
  docker_image : String
  marathon_health_check_path : Option String
  port : Nat
  domain_urls : String
  volume_needed : Bool
  volume_path : Option String
  label_variables : List (String × String)
deriving DecidableEq, Repr

/-- `Controller.app_id`: the slug. -/
def DockerController.app_id (c : DockerController) : String :=
  c.slug

/-- Python truthiness-based `x or default` on a nullable string field. -/
def strOr (o : Option String) (dflt : String) : String :=
  match o with
  | none => dflt
  | some s => if s = "" then dflt else s

/-- Python truthiness of a nullable string field. -/
def strTruthy (o : Option String) : Bool :=
  match o with
  | none => false
  | some s => s ≠ ""

/-- Drop leading whitespace characters. -/
def dropLeadingWS : List Char → List Char
  | [] => []
  | c :: cs => if c.isWhitespace then dropLeadingWS cs else c :: cs

/-- Python `str.strip()`: remove leading and trailing whitespace.
(Structurally recursive over the character list; the built-in
`String.trim` is equivalent but not kernel-reducible.) -/
def pystrip (s : String) : String :=
  ⟨dropLeadingWS ((dropLeadingWS s.data.reverse).reverse)⟩

/-- Python `str.split(" ")` on the character list: split at every
single space, keeping empty pieces (`"".split(" ") == [""]`). -/
def splitSpaceChars : List Char → List (List Char)
  | [] => [[]]
  | c :: cs =>
    match splitSpaceChars cs with
    | t :: ts => if c = ' ' then [] :: t :: ts else (c :: t) :: ts
    | [] => [[]]

/-- Python `str.split(" ")`. -/
def pysplit_space (s : String) : List String :=
  (splitSpaceChars s.data).map (fun l => ⟨l⟩)

/-- Python `" ".join(...)`. -/
def pyjoin_space : List String → String
  | [] => ""
  | [x] => x
  | x :: xs => x ++ " " ++ pyjoin_space xs

/-- `DockerController.get_generic_domain`
(src/mc2/controllers/docker/models.py, lines 141-145). -/
def get_generic_domain (cfg : MCSettings) (c : DockerController) : String :=
  c.app_id ++ "." ++ cfg.HUB_DOMAIN

/-- `DockerController.get_marathon_app_data`
(src/mc2/controllers/docker/models.py, lines 15-79). -/
def get_marathon_app_data (cfg : MCSettings) (c : DockerController) :
    AppData :=
  let docker_dict : DockerDict :=
    { image := c.docker_image
      forcePullImage := true
      network := "BRIDGE"
      portMappings :=
        if c.port ≠ 0 then
          some [{ containerPort := c.port, hostPort := 0 }]
        else none
      parameters :=
        if c.volume_needed then
          some [("volume-driver", "xylem"),
            ("volume",
              c.app_id ++ "_media:" ++
                strOr c.volume_path cfg.MARATHON_DEFAULT_VOLUME_PATH)]
        else none }
  let domains := pystrip (get_generic_domain cfg c ++ " " ++ c.domain_urls)
  let service_labels :=
    c.label_variables.foldl addLabel
      { domain := domains, name := c.name, extra := [] }
  { id := c.app_id
    cpus := c.marathon_cpus
    mem := c.marathon_mem
    instances := c.marathon_instances
    cmd := c.marathon_cmd
    labels := service_labels
    container_type := "DOCKER"
    docker := docker_dict
    ports :=
      if strTruthy c.marathon_health_check_path then some [0] else none
    healthChecks :=
      if strTruthy c.marathon_health_check_path then
        some [{ gracePeriodSeconds := 3, intervalSeconds := 10,
                maxConsecutiveFailures := 3,
                path := c.marathon_health_check_path.getD "",
                portIndex := 0, protocol := "HTTP", timeoutSeconds := 5 }]
      else none }

/-- Everything after the first colon in a character list. -/
def afterColon : List Char → Option (List Char)
  | [] => none
  | c :: cs => if c = ':' then some cs else afterColon cs

/-- Python `value.split(":", 1)[1]`: everything after the first colon;
`none` models the IndexError raised when there is no colon. -/
def splitColonTail (s : String) : Option String :=
  (afterColon s.data).map (fun l => ⟨l⟩)

/-- The `for param in docker_dict.get("parameters", [])` loop of
`from_marathon_app_data`: each `volume` param sets `volume_needed` and
`volume_path` (last one wins); `none` models the IndexError on a
colon-free volume value. -/
def volumeFromParams (params : List (String × String)) :
    Option (Bool × Option String) :=
  params.foldl
    (fun acc p =>
      match acc with
      | none => none
      | some (vn, vp) =>
        if p.1 = "volume" then
          match splitColonTail p.2 with
          | none => none
          | some path => some (true, some path)
        else some (vn, vp))
    (some (false, none))

/-- `DockerController.from_marathon_app_data`
(src/mc2/controllers/docker/models.py, lines 81-131).  The `owner`
argument and the created `MarathonLabel`/`EnvVariable` rows are
represented through the resulting controller's fields; the base
`Controller.get_marathon_app_data` never emits an `env` key, so the
env loop runs over nothing.  `fresh_slug` models
`namers.do_me_a_unique_slug`, which `Controller.save` (lines 77-80)
invokes when the supplied slug is falsy; `namers` is absent from
`src/`.  `none` models the IndexErrors the source can raise (empty
`healthChecks` list, colon-free volume value). -/
def from_marathon_app_data (cfg : MCSettings) (fresh_slug : String)
    (a : AppData) : Option DockerController :=
  let docker_dict := a.docker
  let port : Nat :=
    match docker_dict.portMappings with
    | some (pm :: _) => pm.containerPort
    | _ => 0
  let gen_domain := pystrip (a.id ++ "." ++ cfg.HUB_DOMAIN)
  let domain_urls :=
    pyjoin_space
      ((pysplit_space a.labels.domain).filter (fun d => d ≠ gen_domain))
  let hc : Option (Option String) :=
    match a.healthChecks with
    | none => some none
    | some [] => none
    | some (h :: _) => some (some h.path)
  match volumeFromParams (docker_dict.parameters.getD []), hc with
  | some (vn, vp), some hcp =>
    some
      { slug := if a.id ≠ "" then a.id else fresh_slug
        marathon_cpus := a.cpus
        marathon_mem := a.mem
        marathon_instances := a.instances
        marathon_cmd := a.cmd
        name := a.labels.name
        docker_image := docker_dict.image
        marathon_health_check_path := hcp
        port := port
        domain_urls := domain_urls
        volume_needed := vn
        volume_path := vp
        label_variables := a.labels.extra }
  | _, _ => none

/-! ### Labels-dict lemmas -/

/-- The key list of `dictInsert`: unchanged when the key is present,
extended by the key otherwise. -/
theorem dictInsert_keys (l : List (String × String)) (k v : String) :
    (dictInsert l k v).map Prod.fst =
      if l.any (fun p => p.1 == k) then l.map Prod.fst
      else l.map Prod.fst ++ [k] := by
  by_cases h : l.any (fun p => p.1 == k)
  · simp only [dictInsert, h, if_true, List.map_map]
    refine List.map_congr_left ?_
    intro p _
    by_cases hp : p.1 = k
    · simp [Function.comp_apply, hp]
    · simp [Function.comp_apply, hp]
  · simp [dictInsert, h]

/-- `dictInsert` keeps the key list duplicate-free. -/
theorem dictInsert_keys_nodup {l : List (String × String)} (k v : String)
    (h : (l.map Prod.fst).Nodup) :
    ((dictInsert l k v).map Prod.fst).Nodup := by
  rw [dictInsert_keys]
  by_cases hany : l.any (fun p => p.1 == k)
  · simpa [hany] using h
  · have hany' : (l.any fun p => p.1 == k) = false := Bool.eq_false_iff.mpr hany
    have hk : k ∉ l.map Prod.fst := by
      intro hm
      obtain ⟨p, hp, hpk⟩ := List.mem_map.mp hm
      exact hany (List.any_eq_true.mpr ⟨p, hp, beq_iff_eq.mpr hpk⟩)
    simp only [hany', Bool.false_eq_true, if_false, List.nodup_append]
    exact ⟨h, List.nodup_singleton k, by simpa using hk⟩

/-- Inserting a fresh key appends it. -/
theorem dictInsert_not_mem {l : List (String × String)} {k : String}
    (v : String) (h : k ∉ l.map Prod.fst) :
    dictInsert l k v = l ++ [(k, v)] := by
  have hfalse : l.any (fun p => p.1 == k) = false := by
    rw [List.any_eq_false]
    intro p hp
    simp only [beq_iff_eq]
    intro hc
    exact h (hc ▸ List.mem_map_of_mem Prod.fst hp)
  simp [dictInsert, hfalse]

/-- Folding dict insertions of pairwise-distinct fresh keys appends
them in order. -/
theorem foldl_dictInsert_append (l : List (String × String)) :
    ∀ acc : List (String × String), ((l.map Prod.fst).Nodup) →
      (∀ kv ∈ l, kv.1 ∉ acc.map Prod.fst) →
      l.foldl (fun ac kv => dictInsert ac kv.1 kv.2) acc = acc ++ l := by
  induction l with
  | nil => intro acc _ _; simp
  | cons kv t ih =>
    intro acc hnodup hdisj
    simp only [List.map_cons, List.nodup_cons] at hnodup
    simp only [List.foldl_cons]
    rw [dictInsert_not_mem kv.2 (hdisj kv (List.mem_cons_self _ _))]
    rw [ih (acc ++ [(kv.1, kv.2)]) hnodup.2 ?_]
    · simp
    · intro kv' hkv'
      simp only [List.map_append, List.mem_append, List.map_cons,
        List.map_nil, List.mem_singleton, not_or]
      refine ⟨fun hm => hdisj kv' (List.mem_cons_of_mem _ hkv') hm, ?_⟩
      intro hc
      exact hnodup.1 (hc ▸ List.mem_map_of_mem Prod.fst hkv')

/-- Folding `addLabel` with keys other than `domain`/`name` only
touches the `extra` component. -/
theorem foldl_addLabel_extra (l : List (String × String)) :
    ∀ s : ServiceLabels, (∀ kv ∈ l, kv.1 ≠ "domain" ∧ kv.1 ≠ "name") →
      l.foldl addLabel s =
        { s with
          extra := l.foldl (fun ac kv => dictInsert ac kv.1 kv.2) s.extra } := by
  induction l with
  | nil => intro s _; rfl
  | cons kv t ih =>
    intro s h
    have hk := h kv (List.mem_cons_self _ _)
    simp only [List.foldl_cons]
    rw [show addLabel s kv = { s with extra := dictInsert s.extra kv.1 kv.2 }
      from by simp [addLabel, hk.1, hk.2]]
    rw [ih _ (fun kv' h' => h kv' (List.mem_cons_of_mem _ h'))]

/-- The `extra` component of a fold of `addLabel` keeps its keys free
of `domain`/`name` and duplicate-free. -/
theorem foldl_addLabel_extra_inv (l : List (String × String)) :
    ∀ s : ServiceLabels,
      "domain" ∉ s.extra.map Prod.fst → "name" ∉ s.extra.map Prod.fst →
      (s.extra.map Prod.fst).Nodup →
      "domain" ∉ (l.foldl addLabel s).extra.map Prod.fst ∧
        "name" ∉ (l.foldl addLabel s).extra.map Prod.fst ∧
        ((l.foldl addLabel s).extra.map Prod.fst).Nodup := by
  induction l with
  | nil => intro s h1 h2 h3; exact ⟨h1, h2, h3⟩
  | cons kv t ih =>
    intro s h1 h2 h3
    simp only [List.foldl_cons]
    by_cases hd : kv.1 = "domain"
    · rw [show addLabel s kv = { s with domain := kv.2 }
        from by simp [addLabel, hd]]
      exact ih _ h1 h2 h3
    · by_cases hn : kv.1 = "name"
      · rw [show addLabel s kv = { s with name := kv.2 }
          from by simp [addLabel, hd, hn]]
        exact ih _ h1 h2 h3
      · rw [show addLabel s kv = { s with extra := dictInsert s.extra kv.1 kv.2 }
          from by simp [addLabel, hd, hn]]
        refine ih _ ?_ ?_ (dictInsert_keys_nodup _ _ h3) <;>
          · rw [dictInsert_keys]
            by_cases hany : s.extra.any (fun p => p.1 == kv.1) <;>
              simp [hany, h1, h2] <;>
              first
                | exact fun hc => hd hc.symm
                | exact fun hc => hn hc.symm

/-- The domain label that a controller reimported by
`from_marathon_app_data` would regenerate from a stored domain label:
the import filter (drop the generic domain from the space-separated
tokens) followed by `get_marathon_app_data`'s rebuild (prepend the
generic domain and strip). -/
def reencode_domain (cfg : MCSettings) (slug domain_label : String) : String :=
  pystrip (slug ++ "." ++ cfg.HUB_DOMAIN ++ " " ++
    pyjoin_space ((pysplit_space domain_label).filter
      (fun d => d ≠ pystrip (slug ++ "." ++ cfg.HUB_DOMAIN))))

/-- Refolding the `extra` labels of a labels dict built from an empty
`extra` onto its own `domain`/`name` reproduces the dict. -/
theorem refold_service_labels (d n : String) (l : List (String × String)) :
    ((l.foldl addLabel ⟨d, n, []⟩).extra).foldl addLabel
        ⟨(l.foldl addLabel ⟨d, n, []⟩).domain,
          (l.foldl addLabel ⟨d, n, []⟩).name, []⟩ =
      l.foldl addLabel ⟨d, n, []⟩ := by
  obtain ⟨hdom, hname, hnodup⟩ :=
    foldl_addLabel_extra_inv l ⟨d, n, []⟩ (by simp) (by simp) (by simp)
  have hkeys : ∀ kv ∈ (l.foldl addLabel ⟨d, n, []⟩).extra,
      kv.1 ≠ "domain" ∧ kv.1 ≠ "name" := by
    intro kv hkv
    constructor
    · intro hc; exact hdom (hc ▸ List.mem_map_of_mem Prod.fst hkv)
    · intro hc; exact hname (hc ▸ List.mem_map_of_mem Prod.fst hkv)
  rw [foldl_addLabel_extra _ _ hkeys]
  rw [foldl_dictInsert_append _ _ hnodup (by simp)]
  rfl

/-- C10, amended: the round trip holds for every `DockerController`
with a nonempty slug whose stored domain label decodes losslessly (the
generic domain is not among the space-separated tokens of
`domain_urls`) and, when a volume is configured, whose effective
volume path is nonempty and decodes losslessly from the encoded
`slug_media:path` value (no colon in the slug). -/
theorem marathon_app_data_round_trip (cfg : MCSettings) (fresh_slug : String)
    (c : DockerController)
    (h1 : c.slug ≠ "")
    (h2 : reencode_domain cfg c.slug
        (get_marathon_app_data cfg c).labels.domain =
      (get_marathon_app_data cfg c).labels.domain)
    (h3 : c.volume_needed = true →
      splitColonTail (c.slug ++ "_media:" ++
          strOr c.volume_path cfg.MARATHON_DEFAULT_VOLUME_PATH) =
        some (strOr c.volume_path cfg.MARATHON_DEFAULT_VOLUME_PATH) ∧
      strOr c.volume_path cfg.MARATHON_DEFAULT_VOLUME_PATH ≠ "") :
    (from_marathon_app_data cfg fresh_slug (get_marathon_app_data cfg c)).map
        (get_marathon_app_data cfg) =
      some (get_marathon_app_data cfg c) := by
  have hlabels :
      List.foldl addLabel
        { domain := pystrip (c.slug ++ "." ++ cfg.HUB_DOMAIN ++ " " ++
            pyjoin_space ((pysplit_space
              (List.foldl addLabel
                { domain := pystrip (c.slug ++ "." ++ cfg.HUB_DOMAIN ++ " " ++
                    c.domain_urls),
                  name := c.name, extra := [] } c.label_variables).domain).filter
              (fun d => d ≠ pystrip (c.slug ++ "." ++ cfg.HUB_DOMAIN)))),
          name := (List.foldl addLabel
            { domain := pystrip (c.slug ++ "." ++ cfg.HUB_DOMAIN ++ " " ++
                c.domain_urls),
              name := c.name, extra := [] } c.label_variables).name,
          extra := [] }
        (List.foldl addLabel
          { domain := pystrip (c.slug ++ "." ++ cfg.HUB_DOMAIN ++ " " ++
              c.domain_urls),
            name := c.name, extra := [] } c.label_variables).extra =
      List.foldl addLabel
        { domain := pystrip (c.slug ++ "." ++ cfg.HUB_DOMAIN ++ " " ++
            c.domain_urls),
          name := c.name, extra := [] } c.label_variables := by
    have h2' : pystrip (c.slug ++ "." ++ cfg.HUB_DOMAIN ++ " " ++
        pyjoin_space ((pysplit_space
          (List.foldl addLabel
            { domain := pystrip (c.slug ++ "." ++ cfg.HUB_DOMAIN ++ " " ++
                c.domain_urls),
              name := c.name, extra := [] } c.label_variables).domain).filter
          (fun d => d ≠ pystrip (c.slug ++ "." ++ cfg.HUB_DOMAIN)))) =
        (List.foldl addLabel
          { domain := pystrip (c.slug ++ "." ++ cfg.HUB_DOMAIN ++ " " ++
              c.domain_urls),
            name := c.name, extra := [] } c.label_variables).domain := h2
    rw [h2']
    exact refold_service_labels _ _ _
  simp only [ne_eq, decide_not] at hlabels
  have hvd : ("volume-driver" : String) ≠ "volume" := by decide
  cases hv : c.volume_needed with
  | false =>
    rcases hmp : c.marathon_health_check_path with _ | p
    · by_cases hport : c.port = 0
      · simp only [from_marathon_app_data, get_marathon_app_data,
          DockerController.app_id, get_generic_domain, strTruthy, strOr,
          volumeFromParams, List.foldl_nil, List.foldl_cons, Option.getD,
          Option.map_some, Option.map_some', Option.some.injEq, AppData.mk.injEq,
          DockerDict.mk.injEq, ne_eq, ite_true, ite_false,
          not_false_eq_true, not_true_eq_false, Bool.false_eq_true,
          decide_False, decide_True, decide_not,
          and_self, and_true, true_and, h1, hlabels, hv, hmp, hport]
      · simp only [from_marathon_app_data, get_marathon_app_data,
          DockerController.app_id, get_generic_domain, strTruthy, strOr,
          volumeFromParams, List.foldl_nil, List.foldl_cons, Option.getD,
          Option.map_some, Option.map_some', Option.some.injEq, AppData.mk.injEq,
          DockerDict.mk.injEq, ne_eq, ite_true, ite_false,
          not_false_eq_true, not_true_eq_false, Bool.false_eq_true,
          decide_False, decide_True, decide_not,
          and_self, and_true, true_and, h1, hlabels, hv, hmp, hport]
    · by_cases hp0 : p = ""
      · by_cases hport : c.port = 0
        · simp only [from_marathon_app_data, get_marathon_app_data,
          DockerController.app_id, get_generic_domain, strTruthy, strOr,
          volumeFromParams, List.foldl_nil, List.foldl_cons, Option.getD,
          Option.map_some, Option.map_some', Option.some.injEq, AppData.mk.injEq,
          DockerDict.mk.injEq, ne_eq, ite_true, ite_false,
          not_false_eq_true, not_true_eq_false, Bool.false_eq_true,
          decide_False, decide_True, decide_not,
          and_self, and_true, true_and, h1, hlabels, hv, hmp, hp0, hport]
        · simp only [from_marathon_app_data, get_marathon_app_data,
          DockerController.app_id, get_generic_domain, strTruthy, strOr,
          volumeFromParams, List.foldl_nil, List.foldl_cons, Option.getD,
          Option.map_some, Option.map_some', Option.some.injEq, AppData.mk.injEq,
          DockerDict.mk.injEq, ne_eq, ite_true, ite_false,
          not_false_eq_true, not_true_eq_false, Bool.false_eq_true,
          decide_False, decide_True, decide_not,
          and_self, and_true, true_and, h1, hlabels, hv, hmp, hp0, hport]
      · by_cases hport : c.port = 0
        · simp only [from_marathon_app_data, get_marathon_app_data,
          DockerController.app_id, get_generic_domain, strTruthy, strOr,
          volumeFromParams, List.foldl_nil, List.foldl_cons, Option.getD,
          Option.map_some, Option.map_some', Option.some.injEq, AppData.mk.injEq,
          DockerDict.mk.injEq, ne_eq, ite_true, ite_false,
          not_false_eq_true, not_true_eq_false, Bool.false_eq_true,
          decide_False, decide_True, decide_not,
          and_self, and_true, true_and, h1, hlabels, hv, hmp, hp0, hport]
        · simp only [from_marathon_app_data, get_marathon_app_data,
          DockerController.app_id, get_generic_domain, strTruthy, strOr,
          volumeFromParams, List.foldl_nil, List.foldl_cons, Option.getD,
          Option.map_some, Option.map_some', Option.some.injEq, AppData.mk.injEq,
          DockerDict.mk.injEq, ne_eq, ite_true, ite_false,
          not_false_eq_true, not_true_eq_false, Bool.false_eq_true,
          decide_False, decide_True, decide_not,
          and_self, and_true, true_and, h1, hlabels, hv, hmp, hp0, hport]
  | true =>
    have hsplit := (h3 hv).1
    have hvp0 := (h3 hv).2
    simp only [strOr] at hsplit hvp0
    rcases hmp : c.marathon_health_check_path with _ | p
    · by_cases hport : c.port = 0
      · simp only [from_marathon_app_data, get_marathon_app_data,
          DockerController.app_id, get_generic_domain, strTruthy, strOr,
          volumeFromParams, List.foldl_nil, List.foldl_cons, Option.getD,
          Option.map_some, Option.map_some', Option.some.injEq, AppData.mk.injEq,
          DockerDict.mk.injEq, ne_eq, ite_true, ite_false,
          not_false_eq_true, not_true_eq_false, Bool.false_eq_true,
          decide_False, decide_True, decide_not,
          and_self, and_true, true_and, h1, hlabels, hv, hvd, hsplit, hvp0, hmp, hport]
      · simp only [from_marathon_app_data, get_marathon_app_data,
          DockerController.app_id, get_generic_domain, strTruthy, strOr,
          volumeFromParams, List.foldl_nil, List.foldl_cons, Option.getD,
          Option.map_some, Option.map_some', Option.some.injEq, AppData.mk.injEq,
          DockerDict.mk.injEq, ne_eq, ite_true, ite_false,
          not_false_eq_true, not_true_eq_false, Bool.false_eq_true,
          decide_False, decide_True, decide_not,
          and_self, and_true, true_and, h1, hlabels, hv, hvd, hsplit, hvp0, hmp, hport]
    · by_cases hp0 : p = ""
      · by_cases hport : c.port = 0
        · simp only [from_marathon_app_data, get_marathon_app_data,
          DockerController.app_id, get_generic_domain, strTruthy, strOr,
          volumeFromParams, List.foldl_nil, List.foldl_cons, Option.getD,
          Option.map_some, Option.map_some', Option.some.injEq, AppData.mk.injEq,
          DockerDict.mk.injEq, ne_eq, ite_true, ite_false,
          not_false_eq_true, not_true_eq_false, Bool.false_eq_true,
          decide_False, decide_True, decide_not,
          and_self, and_true, true_and, h1, hlabels, hv, hvd, hsplit, hvp0, hmp, hp0, hport]
        · simp only [from_marathon_app_data, get_marathon_app_data,
          DockerController.app_id, get_generic_domain, strTruthy, strOr,
          volumeFromParams, List.foldl_nil, List.foldl_cons, Option.getD,
          Option.map_some, Option.map_some', Option.some.injEq, AppData.mk.injEq,
          DockerDict.mk.injEq, ne_eq, ite_true, ite_false,
          not_false_eq_true, not_true_eq_false, Bool.false_eq_true,
          decide_False, decide_True, decide_not,
          and_self, and_true, true_and, h1, hlabels, hv, hvd, hsplit, hvp0, hmp, hp0, hport]
      · by_cases hport : c.port = 0
        · simp only [from_marathon_app_data, get_marathon_app_data,
          DockerController.app_id, get_generic_domain, strTruthy, strOr,
          volumeFromParams, List.foldl_nil, List.foldl_cons, Option.getD,
          Option.map_some, Option.map_some', Option.some.injEq, AppData.mk.injEq,
          DockerDict.mk.injEq, ne_eq, ite_true, ite_false,
          not_false_eq_true, not_true_eq_false, Bool.false_eq_true,
          decide_False, decide_True, decide_not,
          and_self, and_true, true_and, h1, hlabels, hv, hvd, hsplit, hvp0, hmp, hp0, hport]
        · simp only [from_marathon_app_data, get_marathon_app_data,
          DockerController.app_id, get_generic_domain, strTruthy, strOr,
          volumeFromParams, List.foldl_nil, List.foldl_cons, Option.getD,
          Option.map_some, Option.map_some', Option.some.injEq, AppData.mk.injEq,
          DockerDict.mk.injEq, ne_eq, ite_true, ite_false,
          not_false_eq_true, not_true_eq_false, Bool.false_eq_true,
          decide_False, decide_True, decide_not,
          and_self, and_true, true_and, h1, hlabels, hv, hvd, hsplit, hvp0, hmp, hp0, hport]

/-- The settings used by the concrete C10 instances. -/
def sample_settings : MCSettings :=
  { HUB_DOMAIN := "qa-hub.unicore.io",
    MARATHON_DEFAULT_VOLUME_PATH := "/data/media" }

/-- A controller whose custom domain list contains its own generic
domain `ffl-za.qa-hub.unicore.io`. -/
def generic_domain_controller : DockerController :=
  { slug := "ffl-za", marathon_cpus := 1, marathon_mem := 256,
    marathon_instances := 1, marathon_cmd := "ping",
    name := "Facts for Life",
    docker_image := "universalcore/unicore-cms-ffl",
    marathon_health_check_path := none, port := 0,
    domain_urls := "ffl-za.qa-hub.unicore.io", volume_needed := false,
    volume_path := none, label_variables := [] }

/-- C10, counterexample: the round trip fails when `domain_urls`
contains the controller's generic domain.  `get_marathon_app_data`
stores the domain label `"ffl-za.qa-hub.unicore.io
ffl-za.qa-hub.unicore.io"`; `from_marathon_app_data` filters out every
occurrence of the generic domain, so the reimported controller's app
data carries the label `"ffl-za.qa-hub.unicore.io"` and differs from
the original dict. -/
theorem round_trip_fails_on_generic_domain :
    (from_marathon_app_data sample_settings "fresh"
        (get_marathon_app_data sample_settings generic_domain_controller)).map
        (get_marathon_app_data sample_settings) ≠
      some (get_marathon_app_data sample_settings generic_domain_controller) := by
  decide

/-- A representative controller exercising every optional feature:
port mapping, health check, volume with default path, custom labels
including a `name` override. -/
def sample_docker_controller : DockerController :=
  { slug := "ffl-za", marathon_cpus := 1, marathon_mem := 256,
    marathon_instances := 2, marathon_cmd := "ping",
    name := "Facts for Life",
    docker_image := "universalcore/unicore-cms-ffl",
    marathon_health_check_path := some "/health", port := 80,
    domain_urls := "za.ffl.org m.ffl.org", volume_needed := true,
    volume_path := none,
    label_variables := [("TEAM", "unicore"), ("name", "Facts")] }

/-- C10 witness: the amended round trip holds at the representative
controller. -/
theorem marathon_app_data_round_trip_witness :
    sample_docker_controller.slug ≠ "" ∧
      (from_marathon_app_data sample_settings "fresh"
          (get_marathon_app_data sample_settings sample_docker_controller)).map
          (get_marathon_app_data sample_settings) =
        some (get_marathon_app_data sample_settings sample_docker_controller) :=
  ⟨by decide,
    marathon_app_data_round_trip sample_settings "fresh"
      sample_docker_controller (by decide) (by decide) (by decide)⟩
